import Mathlib

/-!
Verification of the Wits-Adventure quest API against its specification.

The route handlers in `routes/quests.js`, `routes/users.js` and
`routes/profile.js` are embedded shallowly: the Firestore document store
becomes association lists from document ids to documents, the Firestore
`FieldValue.arrayUnion` / `arrayRemove` / `increment` operators become pure
list and integer operations, and each HTTP handler becomes a function from
the request's inputs and the current database state to an HTTP status code
paired with the successor state.  Handlers run sequentially, matching one
request executing without interleaving.
-/

namespace WitsAdventure

/-- A submission embedded in a quest document, as built by the
`PATCH /:questId/submit` handler in `routes/quests.js`: the user id comes
from the verified token, the timestamp is server-assigned (modelled as a
`Nat` tick supplied by the caller of the model), and status starts
`"pending"`. -/
structure Submission where
  userId : String
  userName : String
  imageUrl : String
  submittedAt : Nat
  status : String
deriving DecidableEq, Repr

/-- A quest document in the `Quests` collection, with the fields the claims
touch: `creatorId` (stamped from the token at creation), the optional
`points` field read by the approve handler (`questData.points || 0`), the
quest-side `acceptedQuests` array initialised `[]` at creation, the
`submissions` array, and the `isArchived` flag. -/
structure Quest where
  name : String
  creatorId : String
  points : Option Int
  acceptedQuests : List String
  submissions : List Submission
  isArchived : Bool
deriving DecidableEq, Repr

/-- A user document in the `Users` collection: the fields initialised by
`POST /users` in `routes/users.js` plus the journey-progress and inventory
fields used by `routes/quests.js` and the spec's user ledger. -/
structure User where
  Email : Option String
  Role : Option String
  Name : Option String
  Bio : Option String
  ProfilePictureUrl : Option String
  SpendablePoints : Int
  LeaderBoardPoints : Int
  Experience : Int
  Level : Int
  CompletedQuests : List String
  acceptedQuests : List String
  completedJourneyQuests : List String
  currentJourneyQuest : Option String
  currentJourneyStop : Int
  inventory : List (String × Bool)
deriving DecidableEq, Repr

/-- The database: the `Quests` and `Users` collections, each an association
list from document id to document. -/
structure DB where
  quests : List (String × Quest)
  users : List (String × User)
deriving DecidableEq, Repr

/-- Firestore document ids are unique within a collection. -/
def DB.Wf (db : DB) : Prop :=
  (db.quests.map (fun kv => kv.1)).Nodup ∧ (db.users.map (fun kv => kv.1)).Nodup

instance (db : DB) : Decidable db.Wf := by
  unfold DB.Wf; infer_instance

/-- `collection(...).doc(key).get()`: first binding of `key`, if any. -/
def lookupDoc {α : Type} : List (String × α) → String → Option α
  | [], _ => none
  | (k, v) :: rest, key => if k = key then some v else lookupDoc rest key

/-- `doc(key).update(f)` on an existing document: rewrite every binding of
`key` (unique under `DB.Wf`) through `f`. -/
def updateDoc {α : Type} (docs : List (String × α)) (key : String) (f : α → α) :
    List (String × α) :=
  docs.map (fun kv => if kv.1 = key then (kv.1, f kv.2) else kv)

/-- `doc(key).delete()`: drop every binding of `key`. -/
def deleteDoc {α : Type} (docs : List (String × α)) (key : String) :
    List (String × α) :=
  docs.filter (fun kv => kv.1 ≠ key)

/-- `FieldValue.arrayUnion x`: append `x` unless already present. -/
def arrayUnion {α : Type} [DecidableEq α] (l : List α) (x : α) : List α :=
  if x ∈ l then l else l ++ [x]

/-- `FieldValue.arrayRemove x`: remove every occurrence of `x`. -/
def arrayRemove {α : Type} [DecidableEq α] (l : List α) (x : α) : List α :=
  l.filter (fun y => y ≠ x)

/-- The ids listed by `GET /api/quests` (`routes/quests.js` lines 47-57):
every document of the `Quests` collection with its id attached. -/
def questIds (db : DB) : List String :=
  db.quests.map (fun kv => kv.1)

/-- The body of `POST /api/quests` as far as the claims are concerned: the
client may supply a `creatorId` field in an attempt to spoof identity. -/
structure QuestBody where
  name : String
  points : Option Int
  creatorId : Option String
deriving DecidableEq, Repr

/-- `POST /api/quests` (`routes/quests.js` lines 64-89): the handler spreads
the request body into `questData` and then overwrites `creatorId` with
`req.user.uid` from the verified token; `acceptedQuests` and `submissions`
start empty and `isArchived` false.  The client-supplied `creatorId` is
discarded by the overwrite. -/
def createQuest (uid : String) (body : QuestBody) : Quest :=
  { name := body.name
    creatorId := uid
    points := body.points
    acceptedQuests := []
    submissions := []
    isArchived := false }

/-- `PATCH /api/quests/:questId/accept` (`routes/quests.js` lines 95-109):
one `update` on the caller's user document adding the quest id with
`arrayUnion`; the quest document is never read or written and no
transaction is used.  `update` on a missing document throws, which the
handler maps to 500. -/
def acceptQuest (uid questId : String) (db : DB) : Nat × DB :=
  match lookupDoc db.users uid with
  | none => (500, db)
  | some _ =>
      let users := updateDoc db.users uid (fun u =>
        { u with acceptedQuests := arrayUnion u.acceptedQuests questId })
      (200, { db with users := users })

/-- `PATCH /api/quests/:questId/abandon` (`routes/quests.js` lines 115-129):
one `update` on the caller's user document removing the quest id with
`arrayRemove`. -/
def abandonQuest (uid questId : String) (db : DB) : Nat × DB :=
  match lookupDoc db.users uid with
  | none => (500, db)
  | some _ =>
      let users := updateDoc db.users uid (fun u =>
        { u with acceptedQuests := arrayRemove u.acceptedQuests questId })
      (200, { db with users := users })

/-- `PATCH /api/quests/:questId/submit` (`routes/quests.js` lines 136-164):
400 when `imageUrl` or `userName` is falsy, otherwise one `update` on the
quest document appending the new submission with `arrayUnion`; prior
submissions are not inspected or removed and no transaction is used. -/
def submitQuest (uid userName imageUrl : String) (now : Nat) (questId : String)
    (db : DB) : Nat × DB :=
  if imageUrl = "" ∨ userName = "" then (400, db)
  else
    match lookupDoc db.quests questId with
    | none => (500, db)
    | some _ =>
        let s : Submission :=
          { userId := uid, userName := userName, imageUrl := imageUrl,
            submittedAt := now, status := "pending" }
        let quests := updateDoc db.quests questId (fun q =>
          { q with submissions := arrayUnion q.submissions s })
        (200, { db with quests := quests })

/-- The sweep shared by close and approve (`routes/quests.js` lines 283-295
and 364-375): query all users whose `acceptedQuests` contains the quest id,
then batch an `arrayRemove` of the id on each of them. -/
def sweepAccepted (docs : List (String × User)) (questId : String) :
    List (String × User) :=
  docs.map (fun kv =>
    if questId ∈ kv.2.acceptedQuests then
      (kv.1, { kv.2 with acceptedQuests := arrayRemove kv.2.acceptedQuests questId })
    else kv)

/-- `DELETE /api/quests/:questId` (`routes/quests.js` lines 272-308): the
transaction reads the quest (missing → error mapped to 500, since only
messages containing "Forbidden" map to 403 here), rejects a non-creator
with 403, then sweeps the quest id out of every accepting user's
`acceptedQuests` and deletes the quest document. -/
def closeQuest (uid questId : String) (db : DB) : Nat × DB :=
  match lookupDoc db.quests questId with
  | none => (500, db)
  | some q =>
      if q.creatorId ≠ uid then (403, db)
      else
        (200, { quests := deleteDoc db.quests questId
                users := sweepAccepted db.users questId })

/-- `POST /api/quests/:questId/approve` (`routes/quests.js` lines 316-394):
400 on a missing `approvedUserId`; 404 on a missing quest; 403 when the
caller is not the creator.  Otherwise, inside the transaction: the approved
user (when their document exists) gets `points || 0` added to
`SpendablePoints` and `LeaderBoardPoints` and the quest id removed from
their `acceptedQuests`; a distinct creator gets half the reward added to
`SpendablePoints` (an `update` on a missing creator document throws,
rolling the transaction back to 500); finally the sweep runs and the quest
document is deleted.  JavaScript halves the reward with float division; the
model uses integer division, which agrees on the even rewards the claims
exercise. -/
def approveQuest (uid questId approvedUserId : String) (db : DB) : Nat × DB :=
  if approvedUserId = "" then (400, db)
  else
    match lookupDoc db.quests questId with
    | none => (404, db)
    | some q =>
        let rewardPoints : Int := q.points.getD 0
        if q.creatorId ≠ uid then (403, db)
        else if q.creatorId ≠ approvedUserId ∧ lookupDoc db.users q.creatorId = none then
          (500, db)
        else
          let users1 :=
            match lookupDoc db.users approvedUserId with
            | none => db.users
            | some _ =>
                updateDoc db.users approvedUserId (fun u =>
                  { u with
                    SpendablePoints := u.SpendablePoints + rewardPoints
                    LeaderBoardPoints := u.LeaderBoardPoints + rewardPoints
                    acceptedQuests := arrayRemove u.acceptedQuests questId })
          let users2 :=
            if q.creatorId ≠ approvedUserId then
              updateDoc users1 q.creatorId (fun u =>
                { u with SpendablePoints := u.SpendablePoints + rewardPoints / 2 })
            else users1
          (200, { quests := deleteDoc db.quests questId
                  users := sweepAccepted users2 questId })

/-- `POST /api/quests/journey/complete` (`routes/quests.js` lines 521-563):
400 when `journeyQuestId` is falsy or `rewardPoints` is not a non-negative
number; the transaction then reads the caller's user document (missing →
error mapped to 500), appends the journey quest id to
`completedJourneyQuests` only when absent, resets `currentJourneyQuest` to
null and `currentJourneyStop` to 1, and increments `SpendablePoints` and
`LeaderBoardPoints` by the client-supplied `rewardPoints`. -/
def journeyComplete (uid journeyQuestId : String) (rewardPoints : Int)
    (db : DB) : Nat × DB :=
  if journeyQuestId = "" ∨ rewardPoints < 0 then (400, db)
  else
    match lookupDoc db.users uid with
    | none => (500, db)
    | some _ =>
        (200, { db with users := updateDoc db.users uid (fun u =>
          { u with
            currentJourneyQuest := none
            currentJourneyStop := 1
            completedJourneyQuests :=
              if journeyQuestId ∈ u.completedJourneyQuests then
                u.completedJourneyQuests
              else u.completedJourneyQuests ++ [journeyQuestId]
            SpendablePoints := u.SpendablePoints + rewardPoints
            LeaderBoardPoints := u.LeaderBoardPoints + rewardPoints }) })

/-- The projection returned by `GET /api/profile` in `routes/profile.js`. -/
structure ProfileView where
  uid : String
  Name : Option String
  LeaderBoardPoints : Int
  CompletedQuests : Nat
  Level : Int
  Bio : Option String
  profilePicture : Option String
deriving DecidableEq, Repr

/-- `GET /api/profile?uid=...` (`routes/profile.js` lines 10-40): the route
is mounted without any authentication middleware and performs no identity
comparison; `uid` comes straight from the query string and the matching
user document's projection is returned to whoever asked. -/
def profileGet (uid : String) (db : DB) : Nat × Option ProfileView :=
  if uid = "" then (400, none)
  else
    match lookupDoc db.users uid with
    | none => (404, none)
    | some u =>
        (200, some
          { uid := uid, Name := u.Name, LeaderBoardPoints := u.LeaderBoardPoints,
            CompletedQuests := u.CompletedQuests.length, Level := u.Level,
            Bio := u.Bio, profilePicture := u.ProfilePictureUrl })

/-- `POST /api/profile/update` (`routes/profile.js` lines 43-62): the route
is mounted without authentication and compares nothing to any caller
identity; `uid` comes from the request body and whichever fields among
Name, Bio and ProfilePictureUrl are present are written onto that user's
document.  `update` on a missing document throws, mapped to 500. -/
def profileUpdate (uid : String) (name bio pictureUrl : Option String)
    (db : DB) : Nat × DB :=
  if uid = "" then (400, db)
  else
    match lookupDoc db.users uid with
    | none => (500, db)
    | some _ =>
        (200, { db with users := updateDoc db.users uid (fun u =>
          { u with
            Name := match name with | some n => some n | none => u.Name
            Bio := match bio with | some b => some b | none => u.Bio
            ProfilePictureUrl :=
              match pictureUrl with | some p => some p | none => u.ProfilePictureUrl }) })

/-- `GET /api/users/:userId` (`routes/users.js` lines 139-159): rejects with
403 whenever the path user id differs from the token uid, then returns the
raw user document. -/
def getUserDoc (callerUid userId : String) (db : DB) : Nat × Option User :=
  if callerUid ≠ userId then (403, none)
  else
    match lookupDoc db.users userId with
    | none => (404, none)
    | some u => (200, some u)

/-- Modelled from the spec: `POST /users/inventory/unlock` has no handler
anywhere under the repository sources; §4.2's
`unlockInventoryItem(userId, itemId, cost)` specifies it: fail with
InsufficientPoints (400) when spendable points < cost, fail with
AlreadyUnlocked (400) when the item is already true in the inventory map,
otherwise atomically decrement spendable points and set the item flag. -/
def unlockInventoryItem (uid item : String) (cost : Int) (db : DB) : Nat × DB :=
  match lookupDoc db.users uid with
  | none => (500, db)
  | some u =>
      if u.SpendablePoints < cost then (400, db)
      else if (u.inventory.lookup item).getD false = true then (400, db)
      else
        (200, { db with users := updateDoc db.users uid (fun v =>
          { v with
            SpendablePoints := v.SpendablePoints - cost
            inventory := (v.inventory.filter (fun kv => kv.1 ≠ item)) ++ [(item, true)] }) })


/-! ### Store lemmas -/

theorem updateDoc_cons {α : Type} (k0 : String) (v0 : α) (rest : List (String × α))
    (key : String) (f : α → α) :
    updateDoc ((k0, v0) :: rest) key f =
      (if k0 = key then (k0, f v0) else (k0, v0)) :: updateDoc rest key f := by
  by_cases h : k0 = key <;> simp [updateDoc, h]

theorem deleteDoc_cons {α : Type} (k0 : String) (v0 : α) (rest : List (String × α))
    (key : String) :
    deleteDoc ((k0, v0) :: rest) key =
      if k0 = key then deleteDoc rest key else (k0, v0) :: deleteDoc rest key := by
  by_cases h : k0 = key <;> simp [deleteDoc, h]

theorem lookupDoc_updateDoc_self {α : Type} (docs : List (String × α)) (key : String)
    (f : α → α) :
    lookupDoc (updateDoc docs key f) key = (lookupDoc docs key).map f := by
  induction docs with
  | nil => rfl
  | cons kv rest ih =>
      obtain ⟨k0, v0⟩ := kv
      rw [updateDoc_cons]
      by_cases h : k0 = key
      · rw [if_pos h]
        simp only [lookupDoc]
        rw [if_pos h, if_pos h, Option.map_some']
      · rw [if_neg h]
        simp only [lookupDoc]
        rw [if_neg h, if_neg h]
        exact ih

theorem lookupDoc_updateDoc_ne {α : Type} (docs : List (String × α)) {key k : String}
    (f : α → α) (h : key ≠ k) :
    lookupDoc (updateDoc docs key f) k = lookupDoc docs k := by
  induction docs with
  | nil => rfl
  | cons kv rest ih =>
      obtain ⟨k0, v0⟩ := kv
      rw [updateDoc_cons]
      by_cases hk : k0 = key
      · have hk2 : ¬k0 = k := fun he => h (hk.symm.trans he)
        rw [if_pos hk]
        simp only [lookupDoc]
        rw [if_neg hk2, if_neg hk2]
        exact ih
      · rw [if_neg hk]
        simp only [lookupDoc]
        by_cases hk2 : k0 = k
        · rw [if_pos hk2, if_pos hk2]
        · rw [if_neg hk2, if_neg hk2]
          exact ih

theorem updateDoc_updateDoc {α : Type} (docs : List (String × α)) (key : String)
    (f g : α → α) :
    updateDoc (updateDoc docs key f) key g = updateDoc docs key (fun v => g (f v)) := by
  induction docs with
  | nil => rfl
  | cons kv rest ih =>
      obtain ⟨k0, v0⟩ := kv
      rw [updateDoc_cons, updateDoc_cons]
      by_cases h : k0 = key
      · rw [if_pos h, updateDoc_cons, if_pos h, if_pos h, ih]
      · rw [if_neg h, updateDoc_cons, if_neg h, if_neg h, ih]

theorem updateDoc_eq_self {α : Type} {docs : List (String × α)} {key : String}
    {f : α → α} (h : ∀ kv ∈ docs, kv.1 = key → f kv.2 = kv.2) :
    updateDoc docs key f = docs := by
  induction docs with
  | nil => rfl
  | cons kv rest ih =>
      obtain ⟨k0, v0⟩ := kv
      have hrest : updateDoc rest key f = rest :=
        ih (fun kv2 hm => h kv2 (List.mem_cons_of_mem _ hm))
      rw [updateDoc_cons, hrest]
      by_cases hk : k0 = key
      · have hv : f v0 = v0 := h (k0, v0) (List.mem_cons_self _ _) hk
        rw [if_pos hk, hv]
      · rw [if_neg hk]

theorem mem_eq_of_lookupDoc {α : Type} {docs : List (String × α)} {key : String}
    {u : α} (hnd : (docs.map (fun kv => kv.1)).Nodup)
    (hl : lookupDoc docs key = some u) :
    ∀ kv ∈ docs, kv.1 = key → kv.2 = u := by
  induction docs with
  | nil => intro kv hm; cases hm
  | cons kv0 rest ih =>
      obtain ⟨k0, v0⟩ := kv0
      rw [List.map_cons, List.nodup_cons] at hnd
      intro kv hm hkey
      rcases List.mem_cons.mp hm with hm | hm
      · subst hm
        rw [lookupDoc, if_pos hkey] at hl
        exact Option.some_injective _ hl
      · by_cases hk0 : k0 = key
        · exact absurd (List.mem_map.mpr ⟨kv, hm, hkey.trans hk0.symm⟩) hnd.1
        · rw [lookupDoc, if_neg hk0] at hl
          exact ih hnd.2 hl kv hm hkey

theorem not_mem_arrayRemove {α : Type} [DecidableEq α] (l : List α) (x : α) :
    x ∉ arrayRemove l x := by
  simp [arrayRemove, List.mem_filter]

theorem arrayRemove_arrayUnion {α : Type} [DecidableEq α] {l : List α} {x : α}
    (h : x ∉ l) : arrayRemove (arrayUnion l x) x = l := by
  have h1 : l.filter (fun y => y ≠ x) = l := by
    rw [List.filter_eq_self]
    intro a ha
    rw [decide_eq_true_eq]
    exact fun he => h (he ▸ ha)
  have h2 : List.filter (fun y => decide (y ≠ x)) [x] = [] := by
    rw [List.filter_cons]
    simp
  unfold arrayUnion arrayRemove
  rw [if_neg h, List.filter_append, h1, h2, List.append_nil]

theorem sweepAccepted_cons (k0 : String) (v0 : User) (rest : List (String × User))
    (questId : String) :
    sweepAccepted ((k0, v0) :: rest) questId =
      (if questId ∈ v0.acceptedQuests then
        (k0, { v0 with acceptedQuests := arrayRemove v0.acceptedQuests questId })
      else (k0, v0)) :: sweepAccepted rest questId := by
  by_cases h : questId ∈ v0.acceptedQuests <;> simp [sweepAccepted, h]

theorem lookupDoc_sweepAccepted (docs : List (String × User)) (questId k : String) :
    lookupDoc (sweepAccepted docs questId) k =
      (lookupDoc docs k).map (fun u =>
        if questId ∈ u.acceptedQuests then
          { u with acceptedQuests := arrayRemove u.acceptedQuests questId }
        else u) := by
  induction docs with
  | nil => rfl
  | cons kv rest ih =>
      obtain ⟨k0, v0⟩ := kv
      rw [sweepAccepted_cons]
      by_cases hq : questId ∈ v0.acceptedQuests
      · rw [if_pos hq]
        simp only [lookupDoc]
        by_cases hk : k0 = k
        · rw [if_pos hk, if_pos hk, Option.map_some', if_pos hq]
        · rw [if_neg hk, if_neg hk]
          exact ih
      · rw [if_neg hq]
        simp only [lookupDoc]
        by_cases hk : k0 = k
        · rw [if_pos hk, if_pos hk, Option.map_some', if_neg hq]
        · rw [if_neg hk, if_neg hk]
          exact ih

theorem mem_sweepAccepted_not_mem (docs : List (String × User)) (questId : String) :
    ∀ kv ∈ sweepAccepted docs questId, questId ∉ kv.2.acceptedQuests := by
  intro kv hkv
  unfold sweepAccepted at hkv
  rw [List.mem_map] at hkv
  obtain ⟨kv0, _, heq⟩ := hkv
  subst heq
  by_cases hq : questId ∈ kv0.2.acceptedQuests
  · rw [if_pos hq]
    exact not_mem_arrayRemove _ _
  · rw [if_neg hq]
    exact hq

theorem lookupDoc_deleteDoc_self {α : Type} (docs : List (String × α)) (key : String) :
    lookupDoc (deleteDoc docs key) key = none := by
  induction docs with
  | nil => rfl
  | cons kv rest ih =>
      obtain ⟨k0, v0⟩ := kv
      rw [deleteDoc_cons]
      by_cases h : k0 = key
      · rw [if_pos h]; exact ih
      · rw [if_neg h, lookupDoc, if_neg h]; exact ih

theorem not_mem_map_fst_deleteDoc {α : Type} (docs : List (String × α)) (key : String) :
    key ∉ (deleteDoc docs key).map (fun kv => kv.1) := by
  intro hmem
  rw [List.mem_map] at hmem
  obtain ⟨kv, hkv, heq⟩ := hmem
  unfold deleteDoc at hkv
  rw [List.mem_filter] at hkv
  exact absurd heq (by simpa using hkv.2)

/-! ### Fixtures -/

/-- The user document written by `POST /users` (`routes/users.js` lines
20-49), with the journey-progress and inventory fields at the defaults the
other handlers fall back to when the fields are absent. -/
def freshUser (email name role : String) : User :=
  { Email := some email
    Role := some role
    Name := some name
    Bio := some ""
    ProfilePictureUrl := none
    SpendablePoints := 0
    LeaderBoardPoints := 0
    Experience := 0
    Level := 0
    CompletedQuests := []
    acceptedQuests := []
    completedJourneyQuests := []
    currentJourneyQuest := none
    currentJourneyStop := 1
    inventory := [] }

/-- A small helper: `arrayUnion` appends when the element is new. -/
theorem arrayUnion_of_not_mem {α : Type} [DecidableEq α] {l : List α} {x : α}
    (h : x ∉ l) : arrayUnion l x = l ++ [x] := by
  unfold arrayUnion
  rw [if_neg h]

/-! ### Claim C7 -/

/-- Claim C7: for all valid quest creation inputs, the creatorId stored in
the created quest equals the authenticated caller's id regardless of any
creatorId present in the request body — two creation requests by the same
caller that differ only in a body-supplied creatorId store the same
creatorId, namely the caller's id. -/
theorem c7_creatorId_never_from_body (uid : String) (body : QuestBody)
    (spoof1 spoof2 : Option String) :
    (createQuest uid { body with creatorId := spoof1 }).creatorId = uid ∧
    (createQuest uid { body with creatorId := spoof1 }).creatorId =
      (createQuest uid { body with creatorId := spoof2 }).creatorId :=
  ⟨rfl, rfl⟩

/-! ### Claim C1 -/

/-- A database with two registered users, for exhibiting the missing
identity check on the `routes/profile.js` endpoints. -/
def dbProfile : DB :=
  { quests := []
    users := [("alice", freshUser "alice@wits.ac.za" "Alice" "player"),
              ("mallory", freshUser "mallory@wits.ac.za" "Mallory" "player")] }

/-- Claim C1 evaluated at the failing input: the claim requires every read
or update of a user document to succeed only when the target id equals the
authenticated caller's id and to be rejected with 403 on mismatch.  The
profile endpoints in `routes/profile.js` are mounted without any
authentication middleware and compare nothing to a caller identity — the
target uid comes from the query string (read) or the body (update) — so a
request issued by any party whatsoever reads user "alice"'s document with
200 and updates her Name with 200; no 403 path exists on these routes. -/
theorem c1_profile_routes_skip_identity_check :
    (profileGet "alice" dbProfile).1 = 200 ∧
    (profileGet "alice" dbProfile).2 = some
      { uid := "alice", Name := some "Alice", LeaderBoardPoints := 0,
        CompletedQuests := 0, Level := 0, Bio := some "",
        profilePicture := none } ∧
    (profileUpdate "alice" (some "hacked") none none dbProfile).1 = 200 ∧
    (lookupDoc (profileUpdate "alice" (some "hacked") none none dbProfile).2.users
        "alice").map (fun u => u.Name) = some (some "hacked") := by
  decide

/-! ### Claim C2 -/

/-- The creation body of the spec's running scenario: the clock quest with
a reward of 100 points and no spoofed creatorId. -/
def clockBody : QuestBody :=
  { name := "Find the Clock", points := some 100, creatorId := none }

/-- A database holding quest "q1" and its creator plus a second user, both
existing, for the Accept claims. -/
def dbAccept : DB :=
  { quests := [("q1", createQuest "c1" clockBody)]
    users := [("c1", freshUser "c1@wits.ac.za" "C1" "player"),
              ("u2", freshUser "u2@wits.ac.za" "U2" "player")] }

/-- Claim C2 counterexample: quest "q1" and user "u2" both exist and Accept
succeeds with 200, yet "u2" is not added to the quest document's
accepted-by set — the handler writes only the user document (a single
`update`, no transaction), so the quest-side half of the claimed effect
never happens. -/
theorem c2_accept_never_writes_quest :
    (acceptQuest "u2" "q1" dbAccept).1 = 200 ∧
    (lookupDoc (acceptQuest "u2" "q1" dbAccept).2.quests "q1").map
      (fun q => q.acceptedQuests) = some [] := by
  decide

/-- Claim C2 amended: Accept by an existing user u adds the quest id to u's
accepted-quests set (one arrayUnion update of the user document) and
returns 200, but the quest document — including any accepted-by set — is
neither read nor modified, and no multi-document transaction is involved. -/
theorem c2_accept_updates_only_user (db : DB) (uid questId : String) (u : User)
    (hu : lookupDoc db.users uid = some u) :
    (acceptQuest uid questId db).1 = 200 ∧
    lookupDoc (acceptQuest uid questId db).2.users uid =
      some { u with acceptedQuests := arrayUnion u.acceptedQuests questId } ∧
    (acceptQuest uid questId db).2.quests = db.quests := by
  have h2 : lookupDoc (updateDoc db.users uid (fun v =>
      { v with acceptedQuests := arrayUnion v.acceptedQuests questId })) uid =
      some { u with acceptedQuests := arrayUnion u.acceptedQuests questId } := by
    rw [lookupDoc_updateDoc_self, hu, Option.map_some']
  unfold acceptQuest
  rw [hu]
  exact ⟨rfl, h2, rfl⟩

/-- Witness for the amended C2 at the concrete database `dbAccept`. -/
theorem c2_accept_updates_only_user_witness :
    (acceptQuest "u2" "q1" dbAccept).1 = 200 ∧
    lookupDoc (acceptQuest "u2" "q1" dbAccept).2.users "u2" =
      some { freshUser "u2@wits.ac.za" "U2" "player" with
        acceptedQuests :=
          arrayUnion (freshUser "u2@wits.ac.za" "U2" "player").acceptedQuests "q1" } ∧
    (acceptQuest "u2" "q1" dbAccept).2.quests = dbAccept.quests :=
  c2_accept_updates_only_user dbAccept "u2" "q1"
    (freshUser "u2@wits.ac.za" "U2" "player") (by decide)

/-! ### Claim C8 -/

/-- A database where user "u2" already holds quest "q1" in their
accepted-quests set before any Accept. -/
def dbRound : DB :=
  { quests := []
    users := [("u2", { freshUser "u2@wits.ac.za" "U2" "player" with
      acceptedQuests := ["q1"] })] }

/-- Claim C8 counterexample: when "u2" already holds "q1" before the
Accept, the Accept is a no-op (arrayUnion) but the Abandon strips the id
(arrayRemove), so the pair does not restore the pre-accept state: the
accepted-quests set was ["q1"] before and is [] after. -/
theorem c8_roundtrip_fails_if_already_accepted :
    (lookupDoc dbRound.users "u2").map (fun u => u.acceptedQuests) = some ["q1"] ∧
    (lookupDoc ((abandonQuest "u2" "q1"
        (acceptQuest "u2" "q1" dbRound).2).2).users "u2").map
      (fun u => u.acceptedQuests) = some [] := by
  decide

/-- Claim C8 amended: provided the quest id is not already in the user's
accepted-quests set, Accept then Abandon by the same existing user returns
the whole database — in particular the user's accepted-quests set and the
never-touched quest-side accepted-by set — to its exact pre-accept state. -/
theorem c8_accept_then_abandon_roundtrip (db : DB) (uid questId : String)
    (u : User) (hw : db.Wf) (hu : lookupDoc db.users uid = some u)
    (hnot : questId ∉ u.acceptedQuests) :
    (abandonQuest uid questId (acceptQuest uid questId db).2).2 = db := by
  have h1 : lookupDoc (updateDoc db.users uid (fun v =>
      { v with acceptedQuests := arrayUnion v.acceptedQuests questId })) uid =
      some { u with acceptedQuests := arrayUnion u.acceptedQuests questId } := by
    rw [lookupDoc_updateDoc_self, hu, Option.map_some']
  unfold acceptQuest
  rw [hu]
  unfold abandonQuest
  simp only []
  rw [h1]
  simp only [updateDoc_updateDoc]
  have hfix : updateDoc db.users uid (fun v =>
      { { v with acceptedQuests := arrayUnion v.acceptedQuests questId } with
        acceptedQuests := arrayRemove
          (arrayUnion v.acceptedQuests questId) questId }) = db.users := by
    apply updateDoc_eq_self
    intro kv hm hk
    have hval : kv.2 = u := mem_eq_of_lookupDoc hw.2 hu kv hm hk
    rw [hval, arrayRemove_arrayUnion hnot]
  rw [hfix]

/-- Witness for the amended C8: "u2" exists and does not yet hold "q1", and
the Accept/Abandon pair restores the database. -/
theorem c8_accept_then_abandon_roundtrip_witness :
    (abandonQuest "u2" "q1" (acceptQuest "u2" "q1" dbAccept).2).2 = dbAccept :=
  c8_accept_then_abandon_roundtrip dbAccept "u2" "q1"
    (freshUser "u2@wits.ac.za" "U2" "player") (by decide) (by decide) (by decide)

/-! ### Claim C6 -/

/-- A pending submission by "u2" already sitting on quest "q1". -/
def priorSubmission : Submission :=
  { userId := "u2", userName := "U2", imageUrl := "img1", submittedAt := 0,
    status := "pending" }

/-- The clock quest with `priorSubmission` already on it. -/
def questWithPrior : Quest :=
  { name := "Find the Clock", creatorId := "c1", points := some 100,
    acceptedQuests := [], submissions := [priorSubmission], isArchived := false }

/-- A database whose quest "q1" already holds `priorSubmission`. -/
def dbSubmit : DB :=
  { quests := [("q1", questWithPrior)], users := [] }

/-- Claim C6 counterexample: quest "q1" already holds a pending submission
by "u2"; a second submission by "u2" (at a later server timestamp) returns
200 and the quest then holds two submissions by that user — the prior one
was not removed, so the at-most-one-submission-per-user consequence fails. -/
theorem c6_submit_keeps_prior_submission :
    (submitQuest "u2" "U2" "img2" 1 "q1" dbSubmit).1 = 200 ∧
    (lookupDoc (submitQuest "u2" "U2" "img2" 1 "q1" dbSubmit).2.quests "q1").map
      (fun q => (q.submissions.filter (fun s => s.userId = "u2")).length) =
      some 2 := by
  decide

/-- Claim C6 amended: Submit on an existing quest with non-empty imageUrl
and userName appends the new pending submission to the quest's submissions
sequence in a single arrayUnion update; prior submissions by the same user
are left in place (no transaction removes them), so the sequence can hold
several submissions per user. -/
theorem c6_submit_appends (db : DB) (uid userName imageUrl questId : String)
    (now : Nat) (q : Quest)
    (hq : lookupDoc db.quests questId = some q)
    (himg : imageUrl ≠ "") (hname : userName ≠ "")
    (hnew : ({ userId := uid, userName := userName, imageUrl := imageUrl,
               submittedAt := now, status := "pending" } : Submission)
            ∉ q.submissions) :
    (submitQuest uid userName imageUrl now questId db).1 = 200 ∧
    lookupDoc (submitQuest uid userName imageUrl now questId db).2.quests questId =
      some { q with submissions := q.submissions ++
        [{ userId := uid, userName := userName, imageUrl := imageUrl,
           submittedAt := now, status := "pending" }] } ∧
    (submitQuest uid userName imageUrl now questId db).2.users = db.users := by
  have hcond : ¬(imageUrl = "" ∨ userName = "") := not_or.mpr ⟨himg, hname⟩
  have h2 : lookupDoc (updateDoc db.quests questId (fun v =>
      { v with submissions := arrayUnion v.submissions
                               { userId := uid, userName := userName,
                                 imageUrl := imageUrl, submittedAt := now,
                                 status := "pending" } })) questId =
      some { q with submissions := q.submissions ++
        [{ userId := uid, userName := userName, imageUrl := imageUrl,
           submittedAt := now, status := "pending" }] } := by
    rw [lookupDoc_updateDoc_self, hq, Option.map_some', arrayUnion_of_not_mem hnew]
  unfold submitQuest
  rw [if_neg hcond, hq]
  exact ⟨rfl, h2, rfl⟩

/-- Witness for the amended C6 at the concrete database `dbSubmit`. -/
theorem c6_submit_appends_witness :
    (submitQuest "u2" "U2" "img2" 1 "q1" dbSubmit).1 = 200 ∧
    lookupDoc (submitQuest "u2" "U2" "img2" 1 "q1" dbSubmit).2.quests "q1" =
      some { questWithPrior with
        submissions := questWithPrior.submissions ++
          [{ userId := "u2", userName := "U2", imageUrl := "img2",
             submittedAt := 1, status := "pending" }] } ∧
    (submitQuest "u2" "U2" "img2" 1 "q1" dbSubmit).2.users = dbSubmit.users :=
  c6_submit_appends dbSubmit "u2" "U2" "img2" "q1" 1 questWithPrior
    (by decide) (by decide) (by decide) (by decide)

/-! ### Claim C4 -/

/-- Claim C4: approving a quest whose creatorId is A as an authenticated
caller B ≠ A (with `approvedUserId` present in the body) returns 403 and
the database is returned exactly unchanged — so no SpendablePoints,
LeaderBoardPoints or Experience accumulator of any user is mutated and the
quest document is untouched. -/
theorem c4_approve_forbidden_for_non_creator (db : DB) (questId A B auid : String)
    (q : Quest) (hq : lookupDoc db.quests questId = some q)
    (hcr : q.creatorId = A) (hne : B ≠ A) (hauid : auid ≠ "") :
    approveQuest B questId auid db = (403, db) := by
  have hfb : q.creatorId ≠ B := fun he => hne (he.symm.trans hcr)
  simp only [approveQuest, hq, if_neg hauid]
  rw [if_pos hfb]

/-- Witness for C4: "mallory" is not the creator of "q1" in `dbAccept`. -/
theorem c4_approve_forbidden_for_non_creator_witness :
    approveQuest "mallory" "q1" "u2" dbAccept = (403, dbAccept) :=
  c4_approve_forbidden_for_non_creator dbAccept "q1" "c1" "mallory" "u2"
    (createQuest "c1" clockBody) (by decide) rfl (by decide) (by decide)

/-! ### Claim C5 -/

/-- Claim C5: closing an existing quest as its creator returns 200 and
afterwards the quest id is absent from the accepted-quests set of every
user document (in particular of every user who had accepted it), the quest
document is no longer retrievable, and its id is gone from the quest
listing. -/
theorem c5_close_sweeps_and_deletes (db : DB) (uid questId : String) (q : Quest)
    (hq : lookupDoc db.quests questId = some q) (hcr : q.creatorId = uid) :
    (closeQuest uid questId db).1 = 200 ∧
    (∀ kv ∈ (closeQuest uid questId db).2.users, questId ∉ kv.2.acceptedQuests) ∧
    lookupDoc (closeQuest uid questId db).2.quests questId = none ∧
    questId ∉ questIds (closeQuest uid questId db).2 := by
  have hnot : ¬(q.creatorId ≠ uid) := fun h => h hcr
  simp only [closeQuest, hq, if_neg hnot, questIds]
  exact ⟨trivial, mem_sweepAccepted_not_mem _ _, lookupDoc_deleteDoc_self _ _,
    not_mem_map_fst_deleteDoc _ _⟩

/-- A database for the close witness: two users hold quest "q1", one of
them alongside another quest id that must survive the sweep. -/
def dbClose : DB :=
  { quests := [("q1", createQuest "c1" clockBody)]
    users := [("c1", freshUser "c1@wits.ac.za" "C1" "player"),
              ("u2", { freshUser "u2@wits.ac.za" "U2" "player" with
                acceptedQuests := ["q1"] }),
              ("u3", { freshUser "u3@wits.ac.za" "U3" "player" with
                acceptedQuests := ["q9", "q1"] })] }

/-- Witness for C5 at the concrete database `dbClose`. -/
theorem c5_close_sweeps_and_deletes_witness :
    (closeQuest "c1" "q1" dbClose).1 = 200 ∧
    (∀ kv ∈ (closeQuest "c1" "q1" dbClose).2.users, "q1" ∉ kv.2.acceptedQuests) ∧
    lookupDoc (closeQuest "c1" "q1" dbClose).2.quests "q1" = none ∧
    "q1" ∉ questIds (closeQuest "c1" "q1" dbClose).2 :=
  c5_close_sweeps_and_deletes dbClose "c1" "q1" (createQuest "c1" clockBody)
    (by decide) rfl

/-! ### Claim C9 -/

/-- Claim C9: both failure cases of `POST /users/inventory/unlock` — the
caller's spendable points strictly below the item's cost, or the item
already unlocked in the inventory map — respond 400 and leave the caller's
spendable points and inventory map (indeed the whole database) unchanged.
The handler itself is absent from the sources, so `unlockInventoryItem` is
modelled from the spec's user-ledger contract. -/
theorem c9_unlock_failures_leave_state_unchanged (db : DB) (uid item : String)
    (cost : Int) (u : User) (hu : lookupDoc db.users uid = some u)
    (hfail : u.SpendablePoints < cost ∨
      (u.inventory.lookup item).getD false = true) :
    unlockInventoryItem uid item cost db = (400, db) := by
  simp only [unlockInventoryItem, hu]
  rcases hfail with hlt | hun
  · rw [if_pos hlt]
  · by_cases hlt : u.SpendablePoints < cost
    · rw [if_pos hlt]
    · rw [if_neg hlt, if_pos hun]

/-- A user who already unlocked the "hat" item and has 30 spendable
points. -/
def invUser : User :=
  { freshUser "u2@wits.ac.za" "U2" "player" with
    SpendablePoints := 30, inventory := [("hat", true)] }

/-- A database for the inventory-unlock witness. -/
def dbInventory : DB :=
  { quests := [], users := [("u2", invUser)] }

/-- Witness for C9: re-unlocking the already-unlocked "hat" (affordable at
cost 10) fails with 400 and the database is unchanged. -/
theorem c9_unlock_failures_witness :
    unlockInventoryItem "u2" "hat" 10 dbInventory = (400, dbInventory) :=
  c9_unlock_failures_leave_state_unchanged dbInventory "u2" "hat" 10 invUser
    (by decide) (Or.inr (by decide))

/-! ### Claim C10 -/

/-- Claim C10: for an existing caller and a body with a non-empty
journeyQuestId and a non-negative rewardPoints, `POST /quests/journey/complete`
responds 200 and, in the one transaction of the handler, adds the
client-supplied rewardPoints to both SpendablePoints and LeaderBoardPoints
(no quest document is consulted to validate the amount), appends the
journey quest id to completedJourneyQuests only when absent, and resets
currentJourneyQuest to null and currentJourneyStop to 1; the quests
collection is untouched. -/
theorem c10_journey_complete_effects (db : DB) (uid journeyQuestId : String)
    (rewardPoints : Int) (u : User)
    (hu : lookupDoc db.users uid = some u)
    (hne : journeyQuestId ≠ "") (hr : 0 ≤ rewardPoints) :
    (journeyComplete uid journeyQuestId rewardPoints db).1 = 200 ∧
    lookupDoc (journeyComplete uid journeyQuestId rewardPoints db).2.users uid =
      some { u with
        currentJourneyQuest := none
        currentJourneyStop := 1
        completedJourneyQuests :=
          if journeyQuestId ∈ u.completedJourneyQuests then
            u.completedJourneyQuests
          else u.completedJourneyQuests ++ [journeyQuestId]
        SpendablePoints := u.SpendablePoints + rewardPoints
        LeaderBoardPoints := u.LeaderBoardPoints + rewardPoints } ∧
    (journeyComplete uid journeyQuestId rewardPoints db).2.quests = db.quests := by
  have hcond : ¬(journeyQuestId = "" ∨ rewardPoints < 0) := by
    rintro (he | hlt)
    · exact hne he
    · exact absurd hr (not_le.mpr hlt)
  have h2 : lookupDoc (updateDoc db.users uid (fun v =>
      { v with
        currentJourneyQuest := none
        currentJourneyStop := 1
        completedJourneyQuests :=
          if journeyQuestId ∈ v.completedJourneyQuests then
            v.completedJourneyQuests
          else v.completedJourneyQuests ++ [journeyQuestId]
        SpendablePoints := v.SpendablePoints + rewardPoints
        LeaderBoardPoints := v.LeaderBoardPoints + rewardPoints })) uid =
      some { u with
        currentJourneyQuest := none
        currentJourneyStop := 1
        completedJourneyQuests :=
          if journeyQuestId ∈ u.completedJourneyQuests then
            u.completedJourneyQuests
          else u.completedJourneyQuests ++ [journeyQuestId]
        SpendablePoints := u.SpendablePoints + rewardPoints
        LeaderBoardPoints := u.LeaderBoardPoints + rewardPoints } := by
    rw [lookupDoc_updateDoc_self, hu, Option.map_some']
  unfold journeyComplete
  rw [if_neg hcond, hu]
  exact ⟨rfl, h2, rfl⟩

/-- A user part-way through a journey, for the journey-complete witness. -/
def journeyUser : User :=
  { freshUser "u2@wits.ac.za" "U2" "player" with
    SpendablePoints := 5, LeaderBoardPoints := 7,
    completedJourneyQuests := ["j0"],
    currentJourneyQuest := some "j1", currentJourneyStop := 3 }

/-- A database for the journey-complete witness. -/
def dbJourney : DB :=
  { quests := [], users := [("u2", journeyUser)] }

/-- Witness for C10: completing journey quest "j1" with 25 client-supplied
reward points. -/
theorem c10_journey_complete_effects_witness :
    (journeyComplete "u2" "j1" 25 dbJourney).1 = 200 ∧
    lookupDoc (journeyComplete "u2" "j1" 25 dbJourney).2.users "u2" =
      some { journeyUser with
        currentJourneyQuest := none
        currentJourneyStop := 1
        completedJourneyQuests :=
          if "j1" ∈ journeyUser.completedJourneyQuests then
            journeyUser.completedJourneyQuests
          else journeyUser.completedJourneyQuests ++ ["j1"]
        SpendablePoints := journeyUser.SpendablePoints + 25
        LeaderBoardPoints := journeyUser.LeaderBoardPoints + 25 } ∧
    (journeyComplete "u2" "j1" 25 dbJourney).2.quests = dbJourney.quests :=
  c10_journey_complete_effects dbJourney "u2" "j1" 25 journeyUser
    (by decide) (by decide) (by decide)

/-! ### Claim C3 -/

/-- Claim C3: for a quest created through `POST /quests` with a reward of
100 (the `points` field the approve handler reads) by creator c1 whose own
user document exists, and an existing user u2 ≠ c1 who accepted it,
`POST /quests/:questId/approve` by c1 with approvedUserId u2 returns 200;
afterwards u2's SpendablePoints are exactly 100 higher (the document also
shows LeaderBoardPoints raised and the quest id stripped), the quest id is
absent from u2's accepted-quests set, and the quest id no longer appears in
the `GET /quests` listing. -/
theorem c3_approve_awards_and_closes (db : DB) (c1 u2 questId : String)
    (body : QuestBody) (user2 : User)
    (hq : lookupDoc db.quests questId = some (createQuest c1 body))
    (hpts : body.points = some 100)
    (hu2 : lookupDoc db.users u2 = some user2)
    (hc1 : lookupDoc db.users c1 ≠ none)
    (hne : c1 ≠ u2) (hu2ne : u2 ≠ "")
    (_hacc : questId ∈ user2.acceptedQuests) :
    (approveQuest c1 questId u2 db).1 = 200 ∧
    lookupDoc (approveQuest c1 questId u2 db).2.users u2 =
      some { user2 with
        SpendablePoints := user2.SpendablePoints + 100
        LeaderBoardPoints := user2.LeaderBoardPoints + 100
        acceptedQuests := arrayRemove user2.acceptedQuests questId } ∧
    (∀ v, lookupDoc (approveQuest c1 questId u2 db).2.users u2 = some v →
      questId ∉ v.acceptedQuests) ∧
    questId ∉ questIds (approveQuest c1 questId u2 db).2 := by
  have hcrid : (createQuest c1 body).creatorId = c1 := rfl
  have hrw : (createQuest c1 body).points.getD 0 = 100 := by
    rw [show (createQuest c1 body).points = body.points from rfl, hpts]
    rfl
  have hnn : ¬(c1 ≠ c1) := fun h => h rfl
  have hro : ¬(c1 ≠ u2 ∧ lookupDoc db.users c1 = none) := fun h => hc1 h.2
  have e3 : lookupDoc (sweepAccepted (updateDoc (updateDoc db.users u2 (fun u =>
      { u with
        SpendablePoints := u.SpendablePoints + 100
        LeaderBoardPoints := u.LeaderBoardPoints + 100
        acceptedQuests := arrayRemove u.acceptedQuests questId })) c1 (fun u =>
      { u with SpendablePoints := u.SpendablePoints + 100 / 2 })) questId) u2 =
      some { user2 with
        SpendablePoints := user2.SpendablePoints + 100
        LeaderBoardPoints := user2.LeaderBoardPoints + 100
        acceptedQuests := arrayRemove user2.acceptedQuests questId } := by
    rw [lookupDoc_sweepAccepted, lookupDoc_updateDoc_ne _ _ hne,
      lookupDoc_updateDoc_self, hu2, Option.map_some', Option.map_some']
    simp only [if_neg (not_mem_arrayRemove user2.acceptedQuests questId)]
  simp only [approveQuest, hq, hcrid, hrw, if_neg hu2ne, if_neg hnn, if_neg hro,
    if_pos hne, hu2, questIds]
  refine ⟨by trivial, e3, ?_, not_mem_map_fst_deleteDoc _ _⟩
  intro v hv
  have hveq := Option.some_injective _ (e3.symm.trans hv)
  rw [← hveq]
  exact not_mem_arrayRemove _ _

/-- User u2 holding the clock quest, for the approve witness. -/
def acceptedU2 : User :=
  { freshUser "u2@wits.ac.za" "U2" "player" with acceptedQuests := ["q1"] }

/-- A database for the approve witness: the clock quest by "c1", both user
documents present, and "u2" holding the quest. -/
def dbApprove : DB :=
  { quests := [("q1", createQuest "c1" clockBody)]
    users := [("c1", freshUser "c1@wits.ac.za" "C1" "player"),
              ("u2", acceptedU2)] }

/-- Witness for C3 at the concrete database `dbApprove`. -/
theorem c3_approve_awards_and_closes_witness :
    (approveQuest "c1" "q1" "u2" dbApprove).1 = 200 ∧
    lookupDoc (approveQuest "c1" "q1" "u2" dbApprove).2.users "u2" =
      some { acceptedU2 with
        SpendablePoints := acceptedU2.SpendablePoints + 100
        LeaderBoardPoints := acceptedU2.LeaderBoardPoints + 100
        acceptedQuests := arrayRemove acceptedU2.acceptedQuests "q1" } ∧
    (∀ v, lookupDoc (approveQuest "c1" "q1" "u2" dbApprove).2.users "u2" = some v →
      "q1" ∉ v.acceptedQuests) ∧
    "q1" ∉ questIds (approveQuest "c1" "q1" "u2" dbApprove).2 :=
  c3_approve_awards_and_closes dbApprove "c1" "u2" "q1" clockBody acceptedU2
    (by decide) rfl (by decide) (by decide) (by decide) (by decide) (by decide)

end WitsAdventure
